import Mathlib

set_option maxRecDepth 40000

/-!
Shallow embedding of the plant-identification client of this repository:
the durable cache (src/frontend/src/cacheService.js), the request
coordinator hooks (the useClassification hook in
src/frontend/src/imageUtils.js), and the conversation orchestrator
(src/frontend/src/PlantChatbot.js), together with theorems settling the
claims of the specification against these definitions.

Conventions of the embedding:
- JavaScript numbers that only ever hold epoch milliseconds, sizes or
  counters are modelled as `Nat`; the 32-bit signed arithmetic of the
  string hash is modelled on `Int` with explicit wrapping.
- Asynchronous functions are modelled as explicit state transformers;
  a function with an `await` on the network is split into a `Start`
  part (the synchronous prefix up to issuing the request) and a
  `Resolve` part (the continuation once the response settles),
  composed into the full handler. The network response is an input.
- IndexedDB is modelled in its available state (`idbAvailable = true`);
  an object store is an association list keyed by the record key.
-/

namespace PlantApp

/-! ## cacheService.js -/

/-- `CACHE_NAMES.PLANTS` from cacheService.js. -/
def cacheNamePlants : String := "plants-data-cache"

/-- `CACHE_NAMES.CLASSIFICATIONS` from cacheService.js. -/
def cacheNameClassifications : String := "classifications-cache"

/-- `CACHE_NAMES.QA` from cacheService.js. -/
def cacheNameQA : String := "qa-responses-cache"

/-- `String.prototype.toUpperCase()` restricted to ASCII, which covers
every string it is applied to in the source (the cache names). Defined
by a structural map so that it evaluates inside the kernel. -/
def jsToUpperCase (s : String) : String :=
  String.mk (s.toList.map Char.toUpper)

/-- `String.prototype.toLowerCase()` restricted to ASCII (applied only
to user input compared against the ASCII command word `reset`). -/
def jsToLowerCase (s : String) : String :=
  String.mk (s.toList.map Char.toLower)

/-- Whitespace trimming of a character list from both ends. -/
def trimChars (l : List Char) : List Char :=
  ((l.dropWhile fun c => c.isWhitespace).reverse.dropWhile fun c => c.isWhitespace).reverse

/-- `String.prototype.trim()` (ASCII whitespace). -/
def jsTrim (s : String) : String :=
  String.mk (trimChars s.toList)

/-- Whether the first list is an initial segment of the second. -/
def charsLeading : List Char → List Char → Bool
  | [], _ => true
  | _ :: _, [] => false
  | p :: ps, c :: cs => p == c && charsLeading ps cs

/-- `String.prototype.startsWith(p)`. -/
def strStartsWith (s p : String) : Bool :=
  charsLeading p.toList s.toList

/-- `CACHE_EXPIRY` from cacheService.js: a plain object with the three
properties `PLANTS`, `CLASSIFICATIONS`, `QA` (milliseconds); reading any
other property yields `undefined`, modelled as `none`. -/
def CACHE_EXPIRY (prop : String) : Option Nat :=
  if prop = "PLANTS" then some (24 * 60 * 60 * 1000)
  else if prop = "CLASSIFICATIONS" then some (30 * 60 * 1000)
  else if prop = "QA" then some (60 * 60 * 1000)
  else none

variable {Val : Type}

/-- One record of an object store: `{ key, value, expiry }` as written by
`setCache`. The store is created with `keyPath: 'key'`. -/
structure CacheRecord (Val : Type) where
  key : String
  value : Val
  expiry : Nat
deriving DecidableEq

/-- An IndexedDB object store, as a list of records. -/
abbrev CacheStore (Val : Type) := List (CacheRecord Val)

/-- `store.get(key)`: the record with the given key, if present. -/
def storeGet (st : CacheStore Val) (k : String) : Option (CacheRecord Val) :=
  st.find? (fun r => r.key == k)

/-- `store.put(record)` with `keyPath: 'key'`: replaces any record with
the same key. -/
def storePut (st : CacheStore Val) (r : CacheRecord Val) : CacheStore Val :=
  st.filter (fun r0 => r0.key != r.key) ++ [r]

/-- `store.delete(key)`. -/
def storeDelete (st : CacheStore Val) (k : String) : CacheStore Val :=
  st.filter (fun r0 => r0.key != k)

/-- The database `PlantQACache` with its three object stores, one per
cache name. -/
structure CacheDB (Val : Type) where
  plantsStore : CacheStore Val
  classificationsStore : CacheStore Val
  qaStore : CacheStore Val
deriving DecidableEq

/-- `db.transaction(cacheName).objectStore(cacheName)`: the store named
`cacheName`, or `none` when no such store exists (the transaction would
throw, landing in the surrounding catch). -/
def CacheDB.getStore (db : CacheDB Val) (cacheName : String) :
    Option (CacheStore Val) :=
  if cacheName = cacheNamePlants then some db.plantsStore
  else if cacheName = cacheNameClassifications then some db.classificationsStore
  else if cacheName = cacheNameQA then some db.qaStore
  else none

/-- Writes back the store named `cacheName`. -/
def CacheDB.setStore (db : CacheDB Val) (cacheName : String)
    (st : CacheStore Val) : CacheDB Val :=
  if cacheName = cacheNamePlants then { db with plantsStore := st }
  else if cacheName = cacheNameClassifications then { db with classificationsStore := st }
  else if cacheName = cacheNameQA then { db with qaStore := st }
  else db

/-- JavaScript `a || b` on an optional number: both `undefined` and `0`
are falsy. -/
def jsOrNum (a : Option Nat) (b : Nat) : Nat :=
  match a with
  | some n => if n = 0 then b else n
  | none => b

/-- `setCache(cacheName, key, value, expiryTime)` from cacheService.js.
Computes `expiry = Date.now() + (expiryTime || CACHE_EXPIRY[cacheName.toUpperCase()] || 0)`
and puts `{ key, value, expiry }` into the store. Returns `some true`
on success and `none` when the transaction fails (unknown store name),
paired with the updated database. `now` is the value of `Date.now()`. -/
def setCache (db : CacheDB Val) (cacheName key : String) (value : Val)
    (expiryTime : Option Nat) (now : Nat) : Option Bool × CacheDB Val :=
  match db.getStore cacheName with
  | none => (none, db)
  | some st =>
      let expiry := now + jsOrNum expiryTime (jsOrNum (CACHE_EXPIRY (jsToUpperCase cacheName)) 0)
      (some true,
        db.setStore cacheName (storePut st { key := key, value := value, expiry := expiry }))

/-- `getCache(cacheName, key)` from cacheService.js. Returns the cached
value when a record exists with `expiry > Date.now()`; otherwise returns
`none`, deleting the record when one was found expired. `now` is the
value of `Date.now()`. -/
def getCache (db : CacheDB Val) (cacheName key : String) (now : Nat) :
    Option Val × CacheDB Val :=
  match db.getStore cacheName with
  | none => (none, db)
  | some st =>
      match storeGet st key with
      | some r =>
          if r.expiry > now then (some r.value, db)
          else (none, db.setStore cacheName (storeDelete st key))
      | none => (none, db)

/-- One store pass of `clearExpiredCache`: deletes every record reached
by the cursor over `IDBKeyRange.upperBound(now)` on the `expiry` index,
that is, every record with `expiry <= now`. -/
def sweepStore (st : CacheStore Val) (now : Nat) : CacheStore Val :=
  st.filter (fun r => !(r.expiry ≤ now))

/-- `clearExpiredCache()` from cacheService.js, over the three stores. -/
def clearExpiredCache (db : CacheDB Val) (now : Nat) : CacheDB Val :=
  { plantsStore := sweepStore db.plantsStore now
    classificationsStore := sweepStore db.classificationsStore now
    qaStore := sweepStore db.qaStore now }

/-! ### KeyHasher: `generateHash` from cacheService.js -/

/-- Coercion to a signed 32-bit integer, the effect of `hash & hash` and
of the `<<` operator in JavaScript. -/
def toInt32 (x : Int) : Int := (x + 2 ^ 31) % 2 ^ 32 - 2 ^ 31

/-- UTF-16 code units of a character, since `charCodeAt` reads code
units (surrogate pairs for code points beyond the basic plane). -/
def utf16Units (c : Char) : List Nat :=
  let v := c.toNat
  if v < 0x10000 then [v]
  else [0xD800 + (v - 0x10000) / 0x400, 0xDC00 + (v - 0x10000) % 0x400]

/-- One loop iteration of `generateHash`:
`hash = ((hash << 5) - hash) + char; hash = hash & hash`. -/
def hashStep (h : Int) (c : Nat) : Int :=
  toInt32 (toInt32 (h * 32) - h + c)

/-- The accumulated 32-bit hash value of a string. -/
def hashValue (s : String) : Int :=
  ((s.toList.map utf16Units).flatten).foldl hashStep 0

/-- `Number.prototype.toString(16)`: lowercase hexadecimal digits, with
a leading minus sign for negative values. -/
def intToHexString (h : Int) : String :=
  if h < 0 then "-" ++ String.mk (Nat.toDigits 16 h.natAbs)
  else String.mk (Nat.toDigits 16 h.toNat)

/-- `generateHash(str)` from cacheService.js. -/
def generateHash (s : String) : String :=
  intToHexString (hashValue s)

/-- An empty database (all three stores empty), with `Nat` as the stored
value type for concrete evaluations. -/
def emptyNatDB : CacheDB Nat :=
  { plantsStore := [], classificationsStore := [], qaStore := [] }

/-- A concrete database whose plants store holds one record that expires
at time 3. -/
def dbC3 : CacheDB Nat :=
  { plantsStore := [{ key := "k", value := 7, expiry := 3 }]
    classificationsStore := [], qaStore := [] }

/-! ## PlantChatbot.js: data model -/

/-- `SENDER` from PlantChatbot.js. -/
inductive Sender
  | user
  | bot
deriving DecidableEq

/-- `MESSAGE_TYPE` from PlantChatbot.js. -/
inductive MType
  | text
  | image
  | multiImage
  | classification
  | selection
deriving DecidableEq

/-- One element of `data.results` returned by `/api/classify`. Only the
`label` field is ever inspected by the client; the `confidence` number
and the optional `image_path` are carried through opaquely, so the
confidence is modelled as an uninterpreted payload. -/
structure ClassResult where
  label : String
  confidence : Nat := 0
  imagePath : Option String := none
deriving DecidableEq

/-- The payload of a chat message, by message type. -/
inductive MsgContent
  | text (s : String)
  | images (urls : List String)
  | classif (results : List ClassResult)
  | selection (label : String)
deriving DecidableEq

/-- A chat message as appended by the handlers of PlantChatbot.js. -/
structure Message where
  id : String
  content : MsgContent
  sender : Sender
  mtype : MType
  timestamp : Nat
  isProcessing : Bool := false
  isError : Bool := false
deriving DecidableEq

/-- An attached image `File`. `blob` identifies the underlying binary
content, which is what `URL.createObjectURL` points at. -/
structure ImgFile where
  name : String
  ftype : String
  size : Nat
  lastModified : Nat
  blob : Nat
deriving DecidableEq

/-- A clipboard `DataTransferItem`: its MIME type and the blob returned
by `getAsFile()` (which can be null). -/
structure ClipItem where
  itype : String
  blob : Option Nat
deriving DecidableEq

/-- `URL.createObjectURL`, modelled as a function of the blob it points
at (object URLs are identified up to their referent). -/
def createObjectURL (blob : Nat) : String :=
  "blob:" ++ toString blob

/-- The React state of the `PlantChatbot` component that the claims
concern. `now` is the logical value of `Date.now()`; paste-hint and
hover-gallery state is outside every claim and omitted. -/
structure ChatState where
  messages : List Message
  sessionId : Option String
  inputMessage : String
  imageFiles : List ImgFile
  imagePreviewUrls : List String
  isLoading : Bool
  error : Option String
  uploadProgress : Nat
  classifications : List ClassResult
  showClassificationDialog : Bool
  selectedPlant : Option String
  classificationLoading : Bool
  pendingQuestion : Option String
  now : Nat
deriving DecidableEq

/-- A network request issued by the component. -/
inductive Request
  | classify (files : List ImgFile)
  | qa (label : Option String) (question : String) (sessionId : Option String)
deriving DecidableEq

/-- Settled outcome of the `/api/classify` fetch in PlantChatbot.js:
a 2xx response with a parsed body (whose `results` property may be
absent), a non-2xx response, or a rejected fetch with an error
message. -/
inductive ClassifyResp
  | ok (results : Option (List ClassResult))
  | httpError (status : Nat)
  | netError (msg : String)

/-- Settled outcome of the `/api/qa` fetch: a 2xx response with a parsed
body (whose `answer` property may be absent), a non-2xx response, or a
rejected fetch with an error message. -/
inductive QAResp
  | ok (answer : Option String)
  | httpError (status : Nat)
  | netError (msg : String)

/-- JavaScript truthiness of an optional string (`undefined`, `null` and
the empty string are falsy). -/
def jsTruthy (o : Option String) : Bool :=
  match o with
  | none => false
  | some s => s != ""

/-- The initial component state: the welcome message, empty attachments,
no selection, a fresh clock. -/
def initialChatState : ChatState :=
  { messages :=
      [ { id := "welcome"
          content := .text "Xin chào! Tôi là trợ lý thực vật. Bạn có thể hỏi tôi về các loài thực vật hoặc tải lên một hoặc nhiều hình ảnh để tôi nhận diện."
          sender := .bot, mtype := .text, timestamp := 0 } ]
    sessionId := none, inputMessage := "", imageFiles := [], imagePreviewUrls := []
    isLoading := false, error := none, uploadProgress := 0, classifications := []
    showClassificationDialog := false, selectedPlant := none
    classificationLoading := false, pendingQuestion := none, now := 0 }

/-! ## PlantChatbot.js: attachment handlers -/

/-- `clearAllImages` from PlantChatbot.js: revokes the object URLs (no
modelled state) and empties both arrays. -/
def clearAllImages (s : ChatState) : ChatState :=
  { s with imageFiles := [], imagePreviewUrls := [] }

/-- The error text set by `handleFileSelect` when no valid image file
was chosen. -/
def fileSelectErrorText : String :=
  "Vui lòng chọn file hình ảnh hợp lệ (JPG, PNG, etc.)"

/-- `handleFileSelect` from PlantChatbot.js: filters the chosen files to
images, creates one preview URL per valid file, and appends both. -/
def handleFileSelect (s : ChatState) (files : List ImgFile) : ChatState :=
  if files = [] then s
  else
    let validImageFiles := files.filter fun f => strStartsWith f.ftype "image/"
    if validImageFiles = [] then { s with error := some fileSelectErrorText }
    else
      let newPreviewUrls := validImageFiles.map fun f => createObjectURL f.blob
      { s with imageFiles := s.imageFiles ++ validImageFiles
               imagePreviewUrls := s.imagePreviewUrls ++ newPreviewUrls }

/-- The file-extension part of the pasted filename:
`blob.type.split('/')[1] || 'png'`. -/
def pasteExtension (itype : String) : String :=
  match (itype.splitOn "/").drop 1 with
  | [] => "png"
  | e :: _ => if e = "" then "png" else e

/-- The `File` object built by the paste handler from a clipboard blob.
The ISO-timestamp part of the generated name is rendered from the
logical clock; the size of a pasted blob is not tracked. -/
def pastedFile (blob : Nat) (itype : String) (now : Nat) : ImgFile :=
  { name := "pasted-image-" ++ toString now ++ "." ++ pasteExtension itype
    ftype := itype, size := 0, lastModified := now, blob := blob }

/-- The paste handler from PlantChatbot.js (the image-handling path,
after the focus guard): keeps the clipboard items whose type starts with
`image/`, and for each item whose `getAsFile()` is non-null pushes, in
the same loop iteration, a `File` built from the blob and the blob's
object URL; both lists are then appended at once. -/
def handlePaste (s : ChatState) (items : List ClipItem) : ChatState :=
  let imageItems := items.filter fun it => strStartsWith it.itype "image/"
  if imageItems = [] then s
  else
    let pairs := imageItems.filterMap fun it =>
      it.blob.map fun b => (pastedFile b it.itype s.now, createObjectURL b)
    let newFiles := pairs.map Prod.fst
    let newPreviewUrls := pairs.map Prod.snd
    if newFiles = [] then s
    else
      { s with imageFiles := s.imageFiles ++ newFiles
               imagePreviewUrls := s.imagePreviewUrls ++ newPreviewUrls }

/-- Removal by position: `filter((_, i) => i !== index)` keeps every
element whose index differs from `index`, so it drops the element at
that position and is the identity when the index is out of range. -/
def removeAtIdx {α : Type} : List α → Nat → List α
  | [], _ => []
  | _ :: l, 0 => l
  | a :: l, k + 1 => a :: removeAtIdx l k

/-- `removeImage(index)` from PlantChatbot.js: revokes the object URL at
that index and removes position `index` from both arrays. -/
def removeImage (s : ChatState) (idx : Nat) : ChatState :=
  { s with imageFiles := removeAtIdx s.imageFiles idx
           imagePreviewUrls := removeAtIdx s.imagePreviewUrls idx }

/-! ## PlantChatbot.js: classification flow -/

/-- The label the backend uses to signal an out-of-distribution input
(`handleImageClassification`). -/
def oodSentinel : String := "Không tồn tại trong cơ sở dữ liệu"

/-- The explanatory bot message appended on an OOD result. -/
def oodMessageText : String :=
  "Xin lỗi, loài thực vật này không nằm trong cơ sở dữ liệu của tôi. Vui lòng thử lại với hình ảnh của các loài thực vật khác."

/-- The bot message appended when classification returns no results. -/
def noResultsText : String :=
  "Không tìm thấy loài thực vật nào phù hợp với hình ảnh này. Vui lòng thử lại với hình ảnh khác."

/-- Synchronous prefix of `handleImageClassification(messageId,
questionText)` up to issuing the `/api/classify` request: the guard on
an empty `imageFiles`, storing a truthy `questionText` as the pending
question, and appending the processing message. `files0` is the value
of the `imageFiles` closure at the start of the event. Returns the
updated state and the emitted request (`none` on the early return). -/
def classificationStart (s : ChatState) (files0 : List ImgFile) (mid : String)
    (questionText : Option String) : ChatState × Option Request :=
  if files0 = [] then (s, none)
  else
    let s1 := { s with classificationLoading := true }
    let s2 := if jsTruthy questionText
      then { s1 with pendingQuestion := questionText } else s1
    let procMsg : Message :=
      { id := mid ++ "_processing"
        content := .text ("Đang xử lý và phân loại " ++ toString files0.length ++ " hình ảnh...")
        sender := .bot, mtype := .text, timestamp := s.now, isProcessing := true }
    ({ s2 with messages := s2.messages ++ [procMsg] }, some (.classify files0))

/-- Continuation of `handleImageClassification` once the classify fetch
settles, including the catch and finally blocks. The non-2xx branch
throws `Lỗi phân loại hình ảnh (HTTP status)`, landing in the catch. -/
def classificationResolve (s : ChatState) (mid : String)
    (questionText : Option String) (resp : ClassifyResp) : ChatState :=
  let s1 :=
    match resp with
    | .ok results =>
        let sr := { s with messages := s.messages.filter fun m => m.id != mid ++ "_processing" }
        match results with
        | some (firstResult :: rest) =>
            if firstResult.label = oodSentinel then
              let oodMsg : Message :=
                { id := mid ++ "_ood_response", content := .text oodMessageText
                  sender := .bot, mtype := .text, timestamp := sr.now }
              { sr with messages := sr.messages ++ [oodMsg], pendingQuestion := none }
            else
              let resultsMsg : Message :=
                { id := mid ++ "_classification_results"
                  content := .classif (firstResult :: rest)
                  sender := .bot, mtype := .classification, timestamp := sr.now }
              let promptText :=
                if jsTruthy questionText then
                  "Vui lòng chọn loài thực vật phù hợp để tiếp tục với câu hỏi của bạn."
                else "Vui lòng chọn loài thực vật phù hợp để tiếp tục."
              let promptMsg : Message :=
                { id := mid ++ "_selection_prompt", content := .text promptText
                  sender := .bot, mtype := .text, timestamp := sr.now }
              { sr with classifications := firstResult :: rest
                        messages := sr.messages ++ [resultsMsg] ++ [promptMsg]
                        showClassificationDialog := true }
        | some [] | none =>
            let noResMsg : Message :=
              { id := mid ++ "_no_results", content := .text noResultsText
                sender := .bot, mtype := .text, timestamp := sr.now }
            { sr with messages := sr.messages ++ [noResMsg], pendingQuestion := none }
    | .httpError status =>
        let emsg := "Lỗi khi phân loại hình ảnh: "
          ++ ("Lỗi phân loại hình ảnh (HTTP " ++ toString status ++ ")")
        let errMsg : Message :=
          { id := mid ++ "_error", content := .text emsg
            sender := .bot, mtype := .text, timestamp := s.now, isError := true }
        { s with error := some emsg
                 messages := (s.messages.filter fun (m : Message) => m.id != mid ++ "_processing") ++ [errMsg]
                 pendingQuestion := none }
    | .netError m =>
        let emsg := "Lỗi khi phân loại hình ảnh: " ++ m
        let errMsg : Message :=
          { id := mid ++ "_error", content := .text emsg
            sender := .bot, mtype := .text, timestamp := s.now, isError := true }
        { s with error := some emsg
                 messages := (s.messages.filter fun (m : Message) => m.id != mid ++ "_processing") ++ [errMsg]
                 pendingQuestion := none }
  { s1 with classificationLoading := false }

/-- `handleImageClassification` from PlantChatbot.js, as the composition
of its synchronous prefix and its continuation, paired with the list of
network requests it issues. -/
def handleImageClassification (s : ChatState) (files0 : List ImgFile)
    (mid : String) (questionText : Option String) (resp : ClassifyResp) :
    ChatState × List Request :=
  let sr := classificationStart s files0 mid questionText
  match sr.2 with
  | none => (sr.1, [])
  | some req => (classificationResolve sr.1 mid questionText resp, [req])

/-! ## PlantChatbot.js: question answering -/

/-- The fallback answer text used when `data.answer` is falsy. -/
def noAnswerText : String :=
  "Xin lỗi, tôi không có thông tin để trả lời câu hỏi này."

/-- `data.answer || fallback`. -/
def qaAnswerText (answer : Option String) : String :=
  if jsTruthy answer then answer.getD noAnswerText else noAnswerText

/-- Shared continuation of the Q&A fetches of PlantChatbot.js (both in
`handleTextOnlyQuestion` and in `handleQuestionWithSelectedPlant`):
remove the processing message, then append the answer, or the error
message built from the throw on a non-2xx response or from a rejected
fetch. -/
def qaResolve (s : ChatState) (mid : String) (resp : QAResp) : ChatState :=
  let sr := { s with messages := s.messages.filter fun m => m.id != mid ++ "_processing" }
  match resp with
  | .ok answer =>
      let answerMsg : Message :=
        { id := mid ++ "_answer", content := .text (qaAnswerText answer)
          sender := .bot, mtype := .text, timestamp := sr.now }
      { sr with messages := sr.messages ++ [answerMsg] }
  | .httpError status =>
      let emsg := "Lỗi khi xử lý câu hỏi: "
        ++ ("Lỗi xử lý câu hỏi (HTTP " ++ toString status ++ ")")
      let errMsg : Message :=
        { id := mid ++ "_error", content := .text emsg
          sender := .bot, mtype := .text, timestamp := sr.now, isError := true }
      { sr with messages := sr.messages ++ [errMsg] }
  | .netError m =>
      let emsg := "Lỗi khi xử lý câu hỏi: " ++ m
      let errMsg : Message :=
        { id := mid ++ "_error", content := .text emsg
          sender := .bot, mtype := .text, timestamp := sr.now, isError := true }
      { sr with messages := sr.messages ++ [errMsg] }

/-- Synchronous prefix of `handleTextOnlyQuestion(messageId, question)`:
appends the processing message and issues the Q&A request, with the
`label` field present exactly when the `selectedPlant` closure
(`selected0`) is truthy. -/
def textQuestionStart (s : ChatState) (selected0 sessionId0 : Option String)
    (mid question : String) : ChatState × Request :=
  let procMsg : Message :=
    { id := mid ++ "_processing", content := .text "Đang xử lý câu hỏi của bạn..."
      sender := .bot, mtype := .text, timestamp := s.now, isProcessing := true }
  let s1 := { s with messages := s.messages ++ [procMsg] }
  if jsTruthy selected0 then (s1, .qa selected0 question sessionId0)
  else (s1, .qa none question sessionId0)

/-- `handleTextOnlyQuestion` from PlantChatbot.js (both its branches
share the same response handling). -/
def handleTextOnlyQuestion (s : ChatState) (selected0 sessionId0 : Option String)
    (mid question : String) (resp : QAResp) : ChatState × List Request :=
  let sr := textQuestionStart s selected0 sessionId0 mid question
  (qaResolve sr.1 mid resp, [sr.2])

/-- Synchronous prefix of `handleQuestionWithSelectedPlant(messageId,
plantLabel, question)`: appends its processing message and issues the
Q&A request with the given label. -/
def questionWithPlantStart (s : ChatState) (sessionId0 : Option String)
    (mid label question : String) : ChatState × Request :=
  let procMsg : Message :=
    { id := mid ++ "_processing", content := .text "Đang trả lời câu hỏi của bạn..."
      sender := .bot, mtype := .text, timestamp := s.now, isProcessing := true }
  ({ s with messages := s.messages ++ [procMsg] }, .qa (some label) question sessionId0)

/-- `handleQuestionWithSelectedPlant` from PlantChatbot.js. -/
def handleQuestionWithSelectedPlant (s : ChatState) (sessionId0 : Option String)
    (mid label question : String) (resp : QAResp) : ChatState × List Request :=
  let sr := questionWithPlantStart s sessionId0 mid label question
  (qaResolve sr.1 mid resp, [sr.2])

/-! ## PlantChatbot.js: plant selection and message submission -/

/-- `handlePlantSelection(plantLabel, messageId)` from PlantChatbot.js:
records the selection, closes the dialog, appends the selection and
confirmation messages; when the pending question is truthy it is
consumed (cleared before the Q&A call fires with exactly that question
and the chosen label), otherwise the ask prompt is appended. -/
def handlePlantSelection (s : ChatState) (label mid : String) (resp : QAResp) :
    ChatState × List Request :=
  let pending0 := s.pendingQuestion
  let s1 := { s with selectedPlant := some label, showClassificationDialog := false }
  let selMsg : Message :=
    { id := mid ++ "_selection", content := .selection label
      sender := .user, mtype := .selection, timestamp := s1.now }
  let confMsg : Message :=
    { id := mid ++ "_selection_confirmation"
      content := .text ("Bạn đã chọn: " ++ label)
      sender := .bot, mtype := .text, timestamp := s1.now + 1 }
  let s2 := { s1 with messages := s1.messages ++ [selMsg] ++ [confMsg] }
  if jsTruthy pending0 then
    let question := pending0.getD ""
    let s3 := { s2 with pendingQuestion := none }
    handleQuestionWithSelectedPlant s3 s3.sessionId mid label question resp
  else
    let askMsg : Message :=
      { id := mid ++ "_ask_prompt"
        content := .text ("Bạn có thể đặt câu hỏi về loài " ++ label ++ " này.")
        sender := .bot, mtype := .text, timestamp := s2.now + 2 }
    ({ s2 with messages := s2.messages ++ [askMsg] }, [])

/-- `handleSendMessage` from PlantChatbot.js, driven to completion for
one submit event. The closure values of the render (`inputMessage`,
`imageFiles`, `imagePreviewUrls`, `selectedPlant`, `sessionId`) are
captured at entry, as in React: the set-state calls of the reset branch
do not change what the rest of this event observes. The network
responses for whichever fetches the branch performs are inputs. -/
def handleSendMessage (s : ChatState) (classResp : ClassifyResp)
    (qaResp : QAResp) : ChatState × List Request :=
  let input0 := s.inputMessage
  let files0 := s.imageFiles
  let previews0 := s.imagePreviewUrls
  let selected0 := s.selectedPlant
  let sessionId0 := s.sessionId
  let trimmed := jsTrim input0
  if trimmed = "" ∧ files0 = [] then (s, [])
  else
    let sA :=
      if jsToLowerCase trimmed = "reset" then
        let sr := { s with selectedPlant := none, pendingQuestion := none
                           classifications := [], showClassificationDialog := false }
        if files0.length > 0 then clearAllImages sr else sr
      else s
    let mid := "msg_" ++ toString sA.now
    let ts := sA.now
    let userMessages : List Message :=
      (if trimmed != "" then
        [ { id := mid ++ "_text", content := .text trimmed
            sender := .user, mtype := .text, timestamp := ts } ]
       else [])
      ++ (if files0 != [] then
        [ { id := mid ++ "_image", content := .images previews0
            sender := .user, mtype := .multiImage, timestamp := ts + 1 } ]
       else [])
    let sB := { sA with messages := sA.messages ++ userMessages
                        inputMessage := ""
                        isLoading := true, error := none }
    let branched :=
      if files0 != [] ∧ trimmed = "" then
        handleImageClassification sB files0 mid none classResp
      else if files0 != [] ∧ trimmed != "" then
        handleImageClassification sB files0 mid (some trimmed) classResp
      else if trimmed != "" ∧ files0 = [] then
        handleTextOnlyQuestion sB selected0 sessionId0 mid trimmed qaResp
      else (sB, [])
    let sC := clearAllImages { branched.1 with isLoading := false }
    ({ sC with uploadProgress := 0 }, branched.2)

/-! ## imageUtils.js: the useClassification request coordinator

The `useClassification` hook owns `classifications`, `loading`, `error`
and an `abortControllerRef`. A call to `classifyImage` runs a
synchronous prefix (cancel the previous controller, create a fresh one,
cache lookup, issue the fetch on a miss) and a continuation once its
fetch settles; between the two, other calls may run — the interleaving
is made explicit by the `Start`/`Resolve` split. Abort controllers are
numbered; `aborted` records every controller whose `abort()` ran.
`networkCalls` counts the `/api/classify` fetches issued. -/

/-- The hook state of `useClassification`. -/
structure ClassifierState where
  classifications : List ClassResult
  loading : Bool
  error : Option String
  abortCtrl : Option Nat
  nextToken : Nat
  aborted : List Nat
deriving DecidableEq

/-- The hook state together with its environment: the cache database
(only the classifications store is exercised here), the clock, and the
count of network calls issued. -/
structure ClassifyWorld where
  st : ClassifierState
  db : CacheDB (List ClassResult)
  now : Nat
  networkCalls : Nat
deriving DecidableEq

/-- `createImageHash` from imageUtils.js:
`generateHash(name-lastModified-size)`. -/
def createImageHash (f : ImgFile) : String :=
  generateHash (f.name ++ "-" ++ toString f.lastModified ++ "-" ++ toString f.size)

/-- What the synchronous prefix of `classifyImage` produced: the
null-file early return, a cache hit served without the network, or an
in-flight fetch tagged with its abort controller and cache key. -/
inductive ClassifyPhase
  | noFile
  | fromCache (results : List ClassResult)
  | inFlight (token : Nat) (imageHash : String)
deriving DecidableEq

/-- Settled outcome of the `/api/classify` fetch in `classifyImage`: a
2xx response whose body has a well-formed `results` array, a 2xx
response without one (the Invalid-format throw), a non-2xx response
with an optional `detail` in the error body, or a rejected fetch. -/
inductive ClassifyNetResp
  | ok (results : List ClassResult)
  | badShape
  | httpError (status : Nat) (detail : Option String)
  | netError (msg : String)
deriving DecidableEq

/-- Synchronous prefix of `classifyImage(imageFile)` up to its fetch:
the null guard, `setLoading(true); setError(null)`, aborting any
ongoing controller and installing a fresh one, the cache lookup, and —
on a miss — issuing the fetch (image compression is a pure transform of
the uploaded body and does not touch the modelled state). -/
def classifyImageStart (w : ClassifyWorld) (file : Option ImgFile) :
    ClassifyWorld × ClassifyPhase :=
  match file with
  | none =>
      ({ w with st := { w.st with error := some "No image file provided" } }, .noFile)
  | some f =>
      let st1 := { w.st with loading := true, error := none }
      let st2 :=
        match st1.abortCtrl with
        | some t => { st1 with aborted := st1.aborted ++ [t] }
        | none => st1
      let tok := st2.nextToken
      let st3 := { st2 with abortCtrl := some tok, nextToken := tok + 1 }
      let imageHash := createImageHash f
      let looked := getCache w.db cacheNameClassifications imageHash w.now
      match looked.1 with
      | some rs =>
          ({ w with st := { st3 with classifications := rs, loading := false }
                    db := looked.2 }, .fromCache rs)
      | none =>
          ({ w with st := st3, db := looked.2
                    networkCalls := w.networkCalls + 1 }, .inFlight tok imageHash)

/-- The error message thrown on a non-2xx classify response:
`errorData.detail || 'Classification failed (HTTP status)'`. -/
def classifyHttpErrorMsg (status : Nat) (detail : Option String) : String :=
  if jsTruthy detail then detail.getD ""
  else "Classification failed (HTTP " ++ toString status ++ ")"

/-- Continuation of `classifyImage` once its fetch settles. When the
call's controller was aborted, the fetch rejects with `AbortError`: the
catch suppresses it (no `setError`), the call returns null, and only
the finally block (`setLoading(false)`) touches the state. Otherwise
the result is cached (`cacheClassifications` with no TTL override) and
stored, or the error message is recorded. Returns the world and the
value the `classifyImage` promise resolves to. -/
def classifyImageResolve (w : ClassifyWorld) (token : Nat) (imageHash : String)
    (resp : ClassifyNetResp) : ClassifyWorld × Option (List ClassResult) :=
  if token ∈ w.st.aborted then
    ({ w with st := { w.st with loading := false } }, none)
  else
    match resp with
    | .ok rs =>
        let written := setCache w.db cacheNameClassifications imageHash rs none w.now
        ({ w with db := written.2
                  st := { w.st with classifications := rs, loading := false } }, some rs)
    | .badShape =>
        ({ w with st := { w.st with
            error := some ("Error classifying image: " ++ "Invalid classification response format")
            loading := false } }, none)
    | .httpError status detail =>
        ({ w with st := { w.st with
            error := some ("Error classifying image: " ++ classifyHttpErrorMsg status detail)
            loading := false } }, none)
    | .netError m =>
        ({ w with st := { w.st with
            error := some ("Error classifying image: " ++ m)
            loading := false } }, none)

/-- A fresh hook state and empty cache. -/
def freshClassifyWorld : ClassifyWorld :=
  { st := { classifications := [], loading := false, error := none
            abortCtrl := none, nextToken := 0, aborted := [] }
    db := { plantsStore := [], classificationsStore := [], qaStore := [] }
    now := 0, networkCalls := 0 }

/-- A concrete image file used by the concurrency scenarios. -/
def fileA : ImgFile :=
  { name := "a.jpg", ftype := "image/jpeg", size := 100, lastModified := 1, blob := 0 }

/-- The two-concurrent-calls scenario: `classifyImage(fileA)` is called
twice before the first fetch resolves; then the first (aborted) fetch
rejects, then the second resolves successfully. -/
def concurrentStep1 : ClassifyWorld × ClassifyPhase :=
  classifyImageStart freshClassifyWorld (some fileA)

def concurrentStep2 : ClassifyWorld × ClassifyPhase :=
  classifyImageStart concurrentStep1.1 (some fileA)

def concurrentStep3 : ClassifyWorld × Option (List ClassResult) :=
  classifyImageResolve concurrentStep2.1 0 (createImageHash fileA)
    (.ok [ { label := "Ficus religiosa" } ])

def concurrentStep4 : ClassifyWorld × Option (List ClassResult) :=
  classifyImageResolve concurrentStep3.1 1 (createImageHash fileA)
    (.ok [ { label := "Ficus religiosa" } ])

/-! ## Operations on the attachment arrays (claim C10) -/

/-- The four operations that modify `imageFiles`/`imagePreviewUrls`. -/
inductive ImageOp
  | fileSelect (files : List ImgFile)
  | paste (items : List ClipItem)
  | removeOne (idx : Nat)
  | clearAll
deriving DecidableEq

/-- Dispatch of an attachment operation to its handler. -/
def applyImageOp (s : ChatState) (op : ImageOp) : ChatState :=
  match op with
  | .fileSelect files => handleFileSelect s files
  | .paste items => handlePaste s items
  | .removeOne idx => removeImage s idx
  | .clearAll => clearAllImages s

/-- The correspondence invariant: the preview array lists, position by
position, the object URL of each attached file (hence equal lengths). -/
def imagesAligned (s : ChatState) : Prop :=
  s.imagePreviewUrls = s.imageFiles.map fun f => createObjectURL f.blob

/-! ## Concrete states used by witnesses and counterexamples -/

/-- A state about to submit the text `Reset` while a plant is selected
and no image is attached. -/
def sC4 : ChatState :=
  { initialChatState with inputMessage := "Reset"
                          selectedPlant := some "Ficus religiosa"
                          sessionId := some "s1" }

/-- A state in which a classification happened with an accompanying
question, which is now pending while the user picks a plant. -/
def sC7 : ChatState :=
  { initialChatState with pendingQuestion := some "Cách nhận biết?"
                          sessionId := some "sid" }

/-- The state rendered while a text-only question is in flight: the
processing message has been appended and is visible. -/
def sC9 : ChatState :=
  (textQuestionStart initialChatState none (some "s1") "m" "q").1

/-- The processing message appended by `textQuestionStart` in `sC9`. -/
def procC9 : Message :=
  { id := "m_processing", content := .text "Đang xử lý câu hỏi của bạn..."
    sender := .bot, mtype := .text, timestamp := 0, isProcessing := true }

/-- The initial state about to submit a plain text question. -/
def sC9w : ChatState :=
  { initialChatState with inputMessage := "hello" }

/-! ## Helper lemmas -/

theorem storeGet_storeDelete (st : CacheStore Val) (k : String) :
    storeGet (storeDelete st k) k = none := by
  induction st with
  | nil => rfl
  | cons r rest ih =>
      by_cases h : r.key = k
      · simp [storeDelete, storeGet, List.filter_cons, h]
      · simp [storeDelete, storeGet, List.filter_cons, List.find?_cons, h]

theorem getStore_setStore_self (db : CacheDB Val) (name : String)
    (st0 st1 : CacheStore Val) (h : db.getStore name = some st0) :
    (db.setStore name st1).getStore name = some st1 := by
  unfold CacheDB.getStore CacheDB.setStore at *
  by_cases h1 : name = cacheNamePlants
  · simp [h1]
  · by_cases h2 : name = cacheNameClassifications
    · simp [h1, h2, cacheNamePlants, cacheNameClassifications]
    · by_cases h3 : name = cacheNameQA
      · simp [h1, h2, h3, cacheNamePlants, cacheNameClassifications, cacheNameQA]
      · simp [h1, h2, h3] at h

/-- A missed lookup stays missed: when `getCache` returns `none`, an
immediate identical `getCache` on the resulting database also returns
`none` (the read-side deletion cannot create an entry). -/
theorem getCache_none_stable (db : CacheDB Val) (name key : String) (now : Nat)
    (h : (getCache db name key now).1 = none) :
    (getCache ((getCache db name key now).2) name key now).1 = none := by
  cases hs : db.getStore name with
  | none => simp [getCache, hs]
  | some st =>
      cases hg : storeGet st key with
      | none => simp [getCache, hs, hg]
      | some r =>
          by_cases hlt : r.expiry > now
          · exfalso
            rw [show (getCache db name key now).1 = some r.value by
              simp [getCache, hs, hg, hlt]] at h
            exact Option.noConfusion h
          · have hdb2 : (getCache db name key now).2
                = db.setStore name (storeDelete st key) := by
              simp [getCache, hs, hg, hlt]
            rw [hdb2]
            have h4 : (db.setStore name (storeDelete st key)).getStore name
                = some (storeDelete st key) :=
              getStore_setStore_self db name st _ hs
            simp [getCache, h4, storeGet_storeDelete]

/-! ## Claim C1: set-then-get round trip -/

/-- C1: the claim states that `setCache` then an immediate `getCache` of
the same namespace and key returns the stored value unchanged. It fails
on the code: a write without a TTL override on the plants store at time
1000 reports success, yet a read at the same instant returns `none`,
because the computed expiry equals the write time (see C2), so the
entry is already expired and is deleted on read. -/
theorem c1_set_then_immediate_get_returns_none :
    (getCache (setCache emptyNatDB cacheNamePlants "all-plants" 42 none 1000).2
        cacheNamePlants "all-plants" 1000).1 = none ∧
    (setCache emptyNatDB cacheNamePlants "all-plants" 42 none 1000).1 = some true := by
  decide

/-! ## Claim C2: default TTL per namespace -/

/-- C2: the claim states that a `setCache` without override stores
`expiresAt = now + namespace default TTL` (24 hours for the plants
store). The code instead stores `expiresAt = now`, because the default
is read as `CACHE_EXPIRY[cacheName.toUpperCase()]`, the uppercased
store name `PLANTS-DATA-CACHE` is not a property of `CACHE_EXPIRY`, and
the fallback `|| 0` applies. -/
theorem c2_default_ttl_resolves_to_zero :
    CACHE_EXPIRY (jsToUpperCase cacheNamePlants) = none ∧
    (storeGet (setCache emptyNatDB cacheNamePlants "all-plants" 42 none 1000).2.plantsStore
        "all-plants").map CacheRecord.expiry = some 1000 ∧
    1000 ≠ 1000 + 24 * 60 * 60 * 1000 := by
  decide

/-! ## Claim C3: expired entries are never returned -/

/-- C3: an entry is never returned once `now` has reached its expiry: a
`getCache` that finds an expired record returns `none` and deletes the
record, and any later `getCache` for the same key also returns `none`
(the entry is not resurrected). -/
theorem c3_expired_entry_never_returned (db : CacheDB Val) (name key : String)
    (st : CacheStore Val) (r : CacheRecord Val) (now : Nat)
    (hst : db.getStore name = some st) (hr : storeGet st key = some r)
    (hexp : r.expiry ≤ now) :
    (getCache db name key now).1 = none ∧
    (∀ st1, ((getCache db name key now).2).getStore name = some st1 →
        storeGet st1 key = none) ∧
    (∀ later, (getCache ((getCache db name key now).2) name key later).1 = none) := by
  have hnotgt : ¬ (r.expiry > now) := by omega
  have hdb2 : (getCache db name key now).2
      = db.setStore name (storeDelete st key) := by
    simp [getCache, hst, hr, hnotgt]
  have hstore2 : ((getCache db name key now).2).getStore name
      = some (storeDelete st key) := by
    rw [hdb2]; exact getStore_setStore_self db name st _ hst
  refine ⟨?_, ?_, ?_⟩
  · simp [getCache, hst, hr, hnotgt]
  · intro st1 hst1
    rw [hstore2] at hst1
    cases hst1
    exact storeGet_storeDelete st key
  · intro later
    rw [hdb2]
    have h4 : (db.setStore name (storeDelete st key)).getStore name
        = some (storeDelete st key) :=
      getStore_setStore_self db name st _ hst
    simp [getCache, h4, storeGet_storeDelete]

/-- Witness for C3 at a concrete expired entry, read at time 5 and read
again at time 99: absent both times, and the record is gone. -/
theorem c3_expired_entry_never_returned_witness :
    (getCache dbC3 cacheNamePlants "k" 5).1 = none ∧
    storeGet (storeDelete dbC3.plantsStore "k") "k" = none ∧
    (getCache ((getCache dbC3 cacheNamePlants "k" 5).2) cacheNamePlants "k" 99).1 = none :=
  ⟨(c3_expired_entry_never_returned dbC3 cacheNamePlants "k"
      dbC3.plantsStore { key := "k", value := 7, expiry := 3 } 5 rfl rfl (by decide)).1,
   (c3_expired_entry_never_returned dbC3 cacheNamePlants "k"
      dbC3.plantsStore { key := "k", value := 7, expiry := 3 } 5 rfl rfl (by decide)).2.1
      (storeDelete dbC3.plantsStore "k") rfl,
   (c3_expired_entry_never_returned dbC3 cacheNamePlants "k"
      dbC3.plantsStore { key := "k", value := 7, expiry := 3 } 5 rfl rfl (by decide)).2.2 99⟩

/-! ## Claim C5: single-flight deduplication -/

/-- C5: the claim states that two concurrent `classifyImage` calls with
the identical file result in exactly one underlying network call. In
the recorded run the second call starts before the first resolves, and
two network calls are issued (the first is aborted, not shared). -/
theorem c5_concurrent_duplicate_calls_hit_network_twice :
    concurrentStep1.2 = .inFlight 0 (createImageHash fileA) ∧
    concurrentStep2.2 = .inFlight 1 (createImageHash fileA) ∧
    concurrentStep2.1.networkCalls = 2 ∧
    concurrentStep2.1.networkCalls ≠ 1 := by
  decide

/-- C5 amended: a duplicate `classifyImage` call issued while the first
is still in flight does not share its network call; it aborts the first
controller and issues a second fetch (supersession, not single-flight):
after the two calls the network-call count has grown by two and the
first controller is recorded as aborted. -/
theorem c5_amended_duplicate_call_supersedes (w : ClassifyWorld) (f : ImgFile)
    (hmiss : (getCache w.db cacheNameClassifications (createImageHash f) w.now).1 = none) :
    (classifyImageStart w (some f)).2
      = .inFlight w.st.nextToken (createImageHash f) ∧
    (classifyImageStart (classifyImageStart w (some f)).1 (some f)).2
      = .inFlight (w.st.nextToken + 1) (createImageHash f) ∧
    (classifyImageStart (classifyImageStart w (some f)).1 (some f)).1.networkCalls
      = w.networkCalls + 2 ∧
    w.st.nextToken ∈ (classifyImageStart (classifyImageStart w (some f)).1 (some f)).1.st.aborted := by
  have h1 : classifyImageStart w (some f)
      = ({ w with
            st := { w.st with
              loading := true,
              error := none,
              abortCtrl := some w.st.nextToken,
              nextToken := w.st.nextToken + 1,
              aborted := (match w.st.abortCtrl with
                | some t => w.st.aborted ++ [t]
                | none => w.st.aborted) },
            db := (getCache w.db cacheNameClassifications (createImageHash f) w.now).2,
            networkCalls := w.networkCalls + 1 },
        .inFlight w.st.nextToken (createImageHash f)) := by
    cases hctrl : w.st.abortCtrl with
    | none => simp [classifyImageStart, hctrl, hmiss]
    | some t => simp [classifyImageStart, hctrl, hmiss]
  have hmiss2 : (getCache (getCache w.db cacheNameClassifications
      (createImageHash f) w.now).2 cacheNameClassifications (createImageHash f) w.now).1
      = none := getCache_none_stable w.db cacheNameClassifications (createImageHash f) w.now hmiss
  refine ⟨by rw [h1], ?_, ?_, ?_⟩
  · rw [h1]
    simp [classifyImageStart, hmiss2]
  · rw [h1]
    simp [classifyImageStart, hmiss2]
  · rw [h1]
    simp [classifyImageStart, hmiss2]

/-- Witness for the amended C5 on a fresh world and concrete file. -/
theorem c5_amended_duplicate_call_supersedes_witness :
    (classifyImageStart freshClassifyWorld (some fileA)).2
      = .inFlight freshClassifyWorld.st.nextToken (createImageHash fileA) ∧
    (classifyImageStart (classifyImageStart freshClassifyWorld (some fileA)).1 (some fileA)).2
      = .inFlight (freshClassifyWorld.st.nextToken + 1) (createImageHash fileA) ∧
    (classifyImageStart (classifyImageStart freshClassifyWorld (some fileA)).1
        (some fileA)).1.networkCalls = freshClassifyWorld.networkCalls + 2 ∧
    freshClassifyWorld.st.nextToken ∈
      (classifyImageStart (classifyImageStart freshClassifyWorld (some fileA)).1
        (some fileA)).1.st.aborted :=
  c5_amended_duplicate_call_supersedes freshClassifyWorld fileA (by decide)

/-! ## Claim C6: cancelled calls and observable state -/

/-- C6: the claim states that a cancelled in-flight call never sets the
user-visible error field and never mutates any externally observed
state of the coordinator. After the superseding second call, the
coordinator is loading; when the first, aborted call then settles, it
resolves to the distinguished null outcome and indeed sets no error —
but it flips the externally observed `loading` flag from `true` to
`false` in its finally block while the second call is still in flight,
refuting the no-mutation part. -/
theorem c6_aborted_call_clears_loading_flag :
    concurrentStep2.1.st.loading = true ∧
    concurrentStep3.1.st.loading = false ∧
    concurrentStep3.2 = none ∧
    concurrentStep3.1.st.error = none ∧
    concurrentStep3.1.st ≠ concurrentStep2.1.st := by
  decide

/-- C6 amended: a cancelled call resolves to the distinguished null
outcome, never sets the error field, and leaves the results, the cache
and the network count untouched; its only externally observed mutation
is resetting the shared `loading` flag in the finally block. -/
theorem c6_amended_aborted_call_only_clears_loading (w : ClassifyWorld)
    (token : Nat) (imageHash : String) (resp : ClassifyNetResp)
    (habort : token ∈ w.st.aborted) :
    classifyImageResolve w token imageHash resp
      = ({ w with st := { w.st with loading := false } }, none) := by
  simp [classifyImageResolve, habort]

/-- Witness for the amended C6 on the recorded scenario. -/
theorem c6_amended_aborted_call_only_clears_loading_witness :
    classifyImageResolve concurrentStep2.1 0 (createImageHash fileA)
        (.ok [ { label := "Ficus religiosa" } ])
      = ({ concurrentStep2.1 with
            st := { concurrentStep2.1.st with loading := false } }, none) :=
  c6_amended_aborted_call_only_clears_loading concurrentStep2.1 0
    (createImageHash fileA) (.ok [ { label := "Ficus religiosa" } ]) (by decide)

/-! ## Claim C10: the attachment arrays stay aligned -/

theorem removeAtIdx_map {α β : Type} (f : α → β) (l : List α) (i : Nat) :
    (removeAtIdx l i).map f = removeAtIdx (l.map f) i := by
  induction l generalizing i with
  | nil => rfl
  | cons a l ih =>
      cases i with
      | zero => rfl
      | succ k => simp [removeAtIdx, ih]

theorem imagesAligned_applyImageOp (s : ChatState) (op : ImageOp)
    (h : imagesAligned s) : imagesAligned (applyImageOp s op) := by
  cases op with
  | fileSelect files =>
      by_cases h0 : files = []
      · simpa [applyImageOp, handleFileSelect, h0] using h
      · by_cases h1 : files.filter (fun f => strStartsWith f.ftype "image/") = []
        · simpa [applyImageOp, handleFileSelect, h0, h1, imagesAligned] using h
        · simp only [applyImageOp, handleFileSelect, h0, h1, if_neg, if_false]
          simp only [imagesAligned] at h ⊢
          simp [h, List.map_append]
  | paste items =>
      by_cases h0 : items.filter (fun it => strStartsWith it.itype "image/") = []
      · simpa [applyImageOp, handlePaste, h0] using h
      · set pairs := (items.filter fun it => strStartsWith it.itype "image/").filterMap
          (fun it => it.blob.map fun b => (pastedFile b it.itype s.now, createObjectURL b))
          with hpairs
        have hsnd : pairs.map Prod.snd
            = (pairs.map Prod.fst).map fun f => createObjectURL f.blob := by
          rw [List.map_map]
          refine List.map_congr_left ?_
          intro p hp
          rw [hpairs] at hp
          rcases List.mem_filterMap.mp hp with ⟨it, _, hit⟩
          rcases hb : it.blob with _ | b
          · rw [hb] at hit
            simp at hit
          · rw [hb] at hit
            have hpe := Option.some.inj hit
            rw [← hpe]
            rfl
        by_cases h2 : pairs.map Prod.fst = []
        · simpa [applyImageOp, handlePaste, h0, hpairs, h2] using h
        · simp only [applyImageOp, handlePaste, h0, if_neg, if_false]
          rw [← hpairs]
          simp only [h2, if_neg, if_false]
          simp only [imagesAligned] at h ⊢
          simp [h, List.map_append, hsnd]
  | removeOne idx =>
      simp only [applyImageOp, removeImage, imagesAligned] at h ⊢
      rw [h, removeAtIdx_map]
  | clearAll =>
      simp [applyImageOp, clearAllImages, imagesAligned]

/-- C10: starting from any state in which the preview array is, position
by position, the object URL of the corresponding attached file, any
sequence of file selections, clipboard pastes, single removals and
clear-alls preserves that correspondence (and hence the equal length of
the two arrays). -/
theorem c10_attachment_arrays_stay_aligned (s : ChatState) (ops : List ImageOp)
    (h : imagesAligned s) : imagesAligned (ops.foldl applyImageOp s) := by
  induction ops generalizing s with
  | nil => exact h
  | cons op ops ih => exact ih (applyImageOp s op) (imagesAligned_applyImageOp s op h)

/-- Witness for C10: a concrete mixed sequence of the four operations
starting from the initial state. -/
theorem c10_attachment_arrays_stay_aligned_witness :
    imagesAligned ([ImageOp.fileSelect [fileA],
      ImageOp.paste [{ itype := "image/png", blob := some 5 }],
      ImageOp.removeOne 0,
      ImageOp.fileSelect [fileA, { fileA with name := "b.txt", ftype := "text/plain" }],
      ImageOp.clearAll].foldl applyImageOp initialChatState) :=
  c10_attachment_arrays_stay_aligned initialChatState _ rfl

/-! ## Claims C7 and C8: selection and OOD handling -/

theorem append_ne_append_right (a b c : String) (h : b.length ≠ c.length) :
    a ++ b ≠ a ++ c := by
  intro he
  have h2 := congrArg String.length he
  rw [String.length_append, String.length_append] at h2
  omega

/-- C7: after `handlePlantSelection(label, messageId)`, the selected
plant is `label` and a selection-confirmation message is appended; when
a (nonempty) pending question was set at that moment, exactly one Q&A
request is issued carrying that question text and the chosen label, and
the pending question is cleared so it is consumed only once; otherwise
no request is issued and the ask prompt is appended instead. -/
theorem c7_plant_selection_behavior (s : ChatState) (label mid : String)
    (resp : QAResp) :
    ((handlePlantSelection s label mid resp).1).selectedPlant = some label ∧
    (∃ m, m ∈ ((handlePlantSelection s label mid resp).1).messages ∧
        m.id = mid ++ "_selection_confirmation" ∧
        m.content = .text ("Bạn đã chọn: " ++ label)) ∧
    (∀ q, s.pendingQuestion = some q → q ≠ "" →
        (handlePlantSelection s label mid resp).2
          = [Request.qa (some label) q s.sessionId] ∧
        ((handlePlantSelection s label mid resp).1).pendingQuestion = none) ∧
    (s.pendingQuestion = none →
        (handlePlantSelection s label mid resp).2 = [] ∧
        ∃ m, m ∈ ((handlePlantSelection s label mid resp).1).messages ∧
          m.id = mid ++ "_ask_prompt") := by
  have hconf : mid ++ "_selection_confirmation" ≠ mid ++ "_processing" :=
    append_ne_append_right _ _ _ (by decide)
  rcases hp : s.pendingQuestion with _ | q0
  · refine ⟨?_, ?_, ?_, ?_⟩
    · simp [handlePlantSelection, hp, jsTruthy]
    · refine ⟨{ id := mid ++ "_selection_confirmation"
                content := .text ("Bạn đã chọn: " ++ label)
                sender := .bot, mtype := .text, timestamp := s.now + 1 }, ?_, rfl, rfl⟩
      simp [handlePlantSelection, hp, jsTruthy]
    · intro q hq
      exact absurd hq (by simp)
    · intro _
      refine ⟨by simp [handlePlantSelection, hp, jsTruthy], ?_⟩
      refine ⟨{ id := mid ++ "_ask_prompt"
                content := .text ("Bạn có thể đặt câu hỏi về loài " ++ label ++ " này.")
                sender := .bot, mtype := .text, timestamp := s.now + 2 }, ?_, rfl⟩
      simp [handlePlantSelection, hp, jsTruthy]
  · by_cases hq0 : q0 = ""
    · refine ⟨?_, ?_, ?_, ?_⟩
      · simp [handlePlantSelection, hp, hq0, jsTruthy]
      · refine ⟨{ id := mid ++ "_selection_confirmation"
                  content := .text ("Bạn đã chọn: " ++ label)
                  sender := .bot, mtype := .text, timestamp := s.now + 1 }, ?_, rfl, rfl⟩
        simp [handlePlantSelection, hp, hq0, jsTruthy]
      · intro q hq hne
        have hqq : q0 = q := Option.some.inj hq
        exact absurd (hqq ▸ hq0) hne
      · intro hnone
        exact absurd hnone (by simp)
    · have htr : jsTruthy (some q0) = true := by
        simp [jsTruthy, hq0]
      refine ⟨?_, ?_, ?_, ?_⟩
      · cases resp <;>
          simp [handlePlantSelection, hp, htr, handleQuestionWithSelectedPlant,
            questionWithPlantStart, qaResolve]
      · refine ⟨{ id := mid ++ "_selection_confirmation"
                  content := .text ("Bạn đã chọn: " ++ label)
                  sender := .bot, mtype := .text, timestamp := s.now + 1 }, ?_, rfl, rfl⟩
        cases resp <;>
          · simp only [handlePlantSelection, hp, htr, if_true,
              handleQuestionWithSelectedPlant, questionWithPlantStart, qaResolve]
            refine List.mem_append_left _ (List.mem_filter.mpr ⟨?_, ?_⟩)
            · simp
            · simpa using hconf
      · intro q hq hne
        cases Option.some.inj hq
        constructor
        · cases resp <;>
            simp [handlePlantSelection, hp, htr, handleQuestionWithSelectedPlant,
              questionWithPlantStart, qaResolve]
        · cases resp <;>
            simp [handlePlantSelection, hp, htr, handleQuestionWithSelectedPlant,
              questionWithPlantStart, qaResolve]
      · intro hnone
        exact absurd hnone (by simp)

/-- Witness for C7: selecting `Ficus religiosa` while the question from
scenario D is pending issues exactly that Q&A request and clears the
pending question. -/
theorem c7_plant_selection_behavior_witness :
    (handlePlantSelection sC7 "Ficus religiosa" "m1" (.ok (some "ans"))).2
      = [Request.qa (some "Ficus religiosa") "Cách nhận biết?" (some "sid")] ∧
    ((handlePlantSelection sC7 "Ficus religiosa" "m1" (.ok (some "ans"))).1).pendingQuestion
      = none :=
  (c7_plant_selection_behavior sC7 "Ficus religiosa" "m1" (.ok (some "ans"))).2.2.1
    "Cách nhận biết?" rfl (by decide)

/-- C8: when the first classification result carries the OOD sentinel
label, the handler appends the explanatory bot message, discards the
pending question, leaves the selection dialog unopened (its state is
unchanged), leaves the stored classifications unchanged, and appends no
classification-results message. -/
theorem c8_ood_result_closes_flow (s : ChatState) (files0 : List ImgFile)
    (mid : String) (questionText : Option String) (firstResult : ClassResult)
    (rest : List ClassResult) (hfiles : files0 ≠ [])
    (hlab : firstResult.label = oodSentinel) :
    ((handleImageClassification s files0 mid questionText
        (.ok (some (firstResult :: rest)))).1).pendingQuestion = none ∧
    (∃ m, m ∈ ((handleImageClassification s files0 mid questionText
        (.ok (some (firstResult :: rest)))).1).messages ∧
        m.id = mid ++ "_ood_response" ∧ m.content = .text oodMessageText) ∧
    ((handleImageClassification s files0 mid questionText
        (.ok (some (firstResult :: rest)))).1).showClassificationDialog
      = s.showClassificationDialog ∧
    ((handleImageClassification s files0 mid questionText
        (.ok (some (firstResult :: rest)))).1).classifications = s.classifications ∧
    (∀ m, m ∈ ((handleImageClassification s files0 mid questionText
        (.ok (some (firstResult :: rest)))).1).messages →
      m.mtype = MType.classification → m ∈ s.messages) := by
  refine ⟨?_, ?_, ?_, ?_, ?_⟩
  · by_cases hqt : jsTruthy questionText <;>
      simp [handleImageClassification, classificationStart, hfiles, hqt,
        classificationResolve, hlab]
  · refine ⟨{ id := mid ++ "_ood_response", content := .text oodMessageText
              sender := .bot, mtype := .text, timestamp := s.now }, ?_, rfl, rfl⟩
    by_cases hqt : jsTruthy questionText <;>
      simp [handleImageClassification, classificationStart, hfiles, hqt,
        classificationResolve, hlab]
  · by_cases hqt : jsTruthy questionText <;>
      simp [handleImageClassification, classificationStart, hfiles, hqt,
        classificationResolve, hlab]
  · by_cases hqt : jsTruthy questionText <;>
      simp [handleImageClassification, classificationStart, hfiles, hqt,
        classificationResolve, hlab]
  · intro m hm hmt
    by_cases hqt : jsTruthy questionText <;>
      · simp only [handleImageClassification, classificationStart, hfiles, hqt,
          classificationResolve, hlab] at hm
        simp at hm
        rcases hm with ⟨hmem, _⟩ | hood
        · exact hmem
        · rw [hood] at hmt
          exact absurd hmt (by simp)

/-- Witness for C8 on a concrete OOD response: the pending question is
discarded and neither the dialog state nor the stored classifications
change. -/
theorem c8_ood_result_closes_flow_witness :
    ((handleImageClassification initialChatState [fileA] "m" (some "q")
        (.ok (some [ { label := oodSentinel } ]))).1).pendingQuestion = none ∧
    ((handleImageClassification initialChatState [fileA] "m" (some "q")
        (.ok (some [ { label := oodSentinel } ]))).1).showClassificationDialog
      = initialChatState.showClassificationDialog ∧
    ((handleImageClassification initialChatState [fileA] "m" (some "q")
        (.ok (some [ { label := oodSentinel } ]))).1).classifications
      = initialChatState.classifications :=
  ⟨(c8_ood_result_closes_flow initialChatState [fileA] "m" (some "q")
      { label := oodSentinel } [] (by decide) rfl).1,
   (c8_ood_result_closes_flow initialChatState [fileA] "m" (some "q")
      { label := oodSentinel } [] (by decide) rfl).2.2.1,
   (c8_ood_result_closes_flow initialChatState [fileA] "m" (some "q")
      { label := oodSentinel } [] (by decide) rfl).2.2.2.1⟩

/-! ## Claim C9: the message list under orchestrator transitions -/

/-- C9: the claim states that every transition only appends messages and
never removes one previously in the list. The state rendered while a
text-only question is in flight contains the processing message; the
transition that applies the answer removes it from the list. -/
theorem c9_processing_message_removed_on_answer :
    procC9 ∈ sC9.messages ∧
    procC9 ∉ (qaResolve sC9 "m" (.ok (some "ans"))).messages := by
  decide

/-- Freshness of the processing id over a base list lets the removal
filter act as the identity on it. -/
theorem filter_fresh_eq_self (l : List Message) (pid : String)
    (h : ∀ m ∈ l, m.id ≠ pid) :
    l.filter (fun m => m.id != pid) = l :=
  List.filter_eq_self.mpr fun m hm => by simpa using h m hm

/-- Any run of `handleTextOnlyQuestion` only appends to a base list no
element of which carries the transient processing id. -/
theorem textOnly_extends (s2 : ChatState) (base extra : List Message)
    (sel sid : Option String) (mid q : String) (resp : QAResp)
    (hmsg : s2.messages = base ++ extra)
    (hfresh : ∀ m ∈ s2.messages, m.id ≠ mid ++ "_processing") :
    ∃ rest, ((handleTextOnlyQuestion s2 sel sid mid q resp).1).messages
      = base ++ rest := by
  have hall : ∀ m ∈ base ++ extra, m.id ≠ mid ++ "_processing" := by
    rw [← hmsg]; exact hfresh
  have hbf : base.filter (fun m => m.id != mid ++ "_processing") = base :=
    filter_fresh_eq_self base _ fun m hm => hall m (List.mem_append_left _ hm)
  have hef : extra.filter (fun m => m.id != mid ++ "_processing") = extra :=
    filter_fresh_eq_self extra _ fun m hm => hall m (List.mem_append_right _ hm)
  cases resp <;>
    · apply Exists.intro
      simp [handleTextOnlyQuestion, textQuestionStart, qaResolve, apply_ite Prod.fst,
        ite_self, hmsg, List.filter_append, hbf, hef, List.append_assoc]
      try rfl

/-- Any run of `handleImageClassification` only appends to a base list
no element of which carries the transient processing id. -/
theorem classification_extends (s2 : ChatState) (base extra : List Message)
    (files0 : List ImgFile) (mid : String) (qt : Option String)
    (resp : ClassifyResp)
    (hmsg : s2.messages = base ++ extra)
    (hfresh : ∀ m ∈ s2.messages, m.id ≠ mid ++ "_processing") :
    ∃ rest, ((handleImageClassification s2 files0 mid qt resp).1).messages
      = base ++ rest := by
  have hall : ∀ m ∈ base ++ extra, m.id ≠ mid ++ "_processing" := by
    rw [← hmsg]; exact hfresh
  have hbf : base.filter (fun m => m.id != mid ++ "_processing") = base :=
    filter_fresh_eq_self base _ fun m hm => hall m (List.mem_append_left _ hm)
  have hef : extra.filter (fun m => m.id != mid ++ "_processing") = extra :=
    filter_fresh_eq_self extra _ fun m hm => hall m (List.mem_append_right _ hm)
  by_cases hf : files0 = []
  · exact ⟨extra, by simp [handleImageClassification, classificationStart, hf, hmsg]⟩
  · cases resp with
    | ok results =>
        rcases results with _ | rs
        · apply Exists.intro
          simp [handleImageClassification, classificationStart, hf,
            classificationResolve, apply_ite ChatState.messages,
            apply_ite ChatState.now, ite_self, hmsg, List.filter_append, hbf, hef,
            List.append_assoc]
          try rfl
        · rcases rs with _ | ⟨f1, r⟩
          · apply Exists.intro
            simp [handleImageClassification, classificationStart, hf,
              classificationResolve, apply_ite ChatState.messages,
              apply_ite ChatState.now, ite_self, hmsg, List.filter_append, hbf, hef,
              List.append_assoc]
            try rfl
          · by_cases hlab : f1.label = oodSentinel
            · apply Exists.intro
              simp [handleImageClassification, classificationStart, hf,
                classificationResolve, hlab, apply_ite ChatState.messages,
                apply_ite ChatState.now, ite_self, hmsg, List.filter_append, hbf, hef,
                List.append_assoc]
              try rfl
            · apply Exists.intro
              simp [handleImageClassification, classificationStart, hf,
                classificationResolve, hlab, apply_ite ChatState.messages,
                apply_ite ChatState.now, ite_self, hmsg, List.filter_append, hbf, hef,
                List.append_assoc]
              try rfl
    | httpError status =>
        apply Exists.intro
        simp [handleImageClassification, classificationStart, hf,
          classificationResolve, apply_ite ChatState.messages,
          apply_ite ChatState.now, ite_self, hmsg, List.filter_append, hbf, hef,
          List.append_assoc]
        try rfl
    | netError m =>
        apply Exists.intro
        simp [handleImageClassification, classificationStart, hf,
          classificationResolve, apply_ite ChatState.messages,
          apply_ite ChatState.now, ite_self, hmsg, List.filter_append, hbf, hef,
          List.append_assoc]
        try rfl

/-- Over one whole submit event, the message list only grows at the end:
the transient processing message appended at the start of the async
request is the only message ever removed, and it is removed by the same
event that appended it, so the final list extends the initial one. -/
theorem handleSendMessage_messages_extend (s : ChatState) (cr : ClassifyResp)
    (qr : QAResp)
    (hfresh : ∀ m ∈ s.messages, m.id ≠ "msg_" ++ toString s.now ++ "_processing") :
    ∃ rest, ((handleSendMessage s cr qr).1).messages = s.messages ++ rest := by
  have hne2 : ("_text" : String).length ≠ ("_processing" : String).length := by decide
  have hne3 : ("_image" : String).length ≠ ("_processing" : String).length := by decide
  by_cases hguard : jsTrim s.inputMessage = "" ∧ s.imageFiles = []
  · exact ⟨[], by simp [handleSendMessage, hguard]⟩
  · by_cases himg : s.imageFiles = []
    · have htr : jsTrim s.inputMessage ≠ "" := fun h0 => hguard ⟨h0, himg⟩
      have htrb : (jsTrim s.inputMessage != "") = true := by simpa using htr
      simp only [handleSendMessage, hguard, himg, htr, htrb, clearAllImages,
        apply_ite ChatState.messages, apply_ite ChatState.now, ite_self]
      simp only [htr, if_false, if_true, ite_true, ite_false, List.length_nil,
        gt_iff_lt, lt_self_iff_false, bne_self_eq_false, Bool.false_eq_true,
        and_true, and_false, false_and, true_and, List.append_nil]
      refine textOnly_extends _ s.messages
        [ { id := "msg_" ++ toString s.now ++ "_text"
            content := .text (jsTrim s.inputMessage)
            sender := .user, mtype := .text, timestamp := s.now } ]
        _ _ _ _ _ ?_ ?_
      · simp
      · intro m hm
        simp at hm
        rcases hm with hm | hm
        · exact hfresh m hm
        · rw [hm]
          exact append_ne_append_right _ _ _ hne2
    · have himgb : (s.imageFiles != []) = true := by simpa using himg
      have hlen : 0 < s.imageFiles.length := List.length_pos.mpr himg
      by_cases htr0 : jsTrim s.inputMessage = ""
      · simp only [handleSendMessage, hguard, himg, himgb, htr0, hlen, clearAllImages,
          apply_ite ChatState.messages, apply_ite ChatState.now, ite_self]
        simp only [if_false, if_true, ite_true, ite_false, bne_self_eq_false,
          Bool.false_eq_true, and_true, and_false, false_and, true_and,
          List.nil_append, List.append_nil]
        refine classification_extends _ s.messages
          [ { id := "msg_" ++ toString s.now ++ "_image"
              content := .images s.imagePreviewUrls
              sender := .user, mtype := .multiImage, timestamp := s.now + 1 } ]
          _ _ _ _ ?_ ?_
        · simp
        · intro m hm
          simp at hm
          rcases hm with hm | hm
          · exact hfresh m hm
          · rw [hm]
            exact append_ne_append_right _ _ _ hne3
      · have htrb : (jsTrim s.inputMessage != "") = true := by simpa using htr0
        simp only [handleSendMessage, hguard, himg, himgb, htr0, htrb, hlen,
          clearAllImages, apply_ite ChatState.messages, apply_ite ChatState.now,
          ite_self]
        simp only [htr0, if_false, if_true, ite_true, ite_false, bne_self_eq_false,
          Bool.false_eq_true, and_true, and_false, false_and, true_and,
          List.nil_append, List.append_nil]
        refine classification_extends _ s.messages
          [ { id := "msg_" ++ toString s.now ++ "_text"
              content := .text (jsTrim s.inputMessage)
              sender := .user, mtype := .text, timestamp := s.now },
            { id := "msg_" ++ toString s.now ++ "_image"
              content := .images s.imagePreviewUrls
              sender := .user, mtype := .multiImage, timestamp := s.now + 1 } ]
          _ _ _ _ ?_ ?_
        · simp
        · intro m hm
          simp at hm
          rcases hm with hm | hm | hm
          · exact hfresh m hm
          · rw [hm]
            exact append_ne_append_right _ _ _ hne2
          · rw [hm]
            exact append_ne_append_right _ _ _ hne3

/-- C9 amended: message-list updates are append-only except for the
transient processing message: within one submit event the handler
appends a processing message and removes exactly that message (by its
id) when the request settles, so — provided no pre-existing message
carries the freshly generated processing id, which holds since ids
embed the creation time — every message present before the event is
still present, in the same order and position, when the event ends, and
new messages are only appended after them. The mid-event removal of the
processing message is still observable (see the counterexample), which
is the only deviation from the claim. -/
theorem c9_amended_event_appends_messages (s : ChatState) (cr : ClassifyResp)
    (qr : QAResp)
    (hfresh : ∀ m ∈ s.messages, m.id ≠ "msg_" ++ toString s.now ++ "_processing") :
    ((handleSendMessage s cr qr).1).messages.take s.messages.length = s.messages := by
  obtain ⟨rest, h⟩ := handleSendMessage_messages_extend s cr qr hfresh
  rw [h]
  exact List.take_left s.messages rest

/-- Witness for the amended C9 on a concrete text-only submit event. -/
theorem c9_amended_event_appends_messages_witness :
    ((handleSendMessage sC9w (.ok none) (.ok (some "a"))).1).messages.take
        sC9w.messages.length = sC9w.messages :=
  c9_amended_event_appends_messages sC9w (.ok none) (.ok (some "a")) (by decide)

/-! ## Claim C4: the reset command -/

/-- C4: the claim states that reset handling takes precedence over all
other handling of the submitted text, so that `reset` is not also
processed as a Q&A question. The reset branch runs first and clears the
context, but the handler does not return: on this concrete state the
same event still issues a Q&A request whose question is the submitted
text `Reset`, labelled with the plant selected before the reset. -/
theorem c4_reset_is_also_sent_as_question :
    (handleSendMessage sC4 (.ok none) (.ok (some "ans"))).2
      = [Request.qa (some "Ficus religiosa") "Reset" (some "s1")] ∧
    (handleSendMessage sC4 (.ok none) (.ok (some "ans"))).2 ≠ [] := by
  decide

/-- C4 amended: on a submitted text equal (case-insensitively, after
trimming) to `reset`, with no image attached, the handler clears the
selected plant, the pending question, the stored classifications, the
selection dialog and the attached images — the reset branch is
recognized before any message is appended — but the submitted text then
still flows through the normal path: the event also issues exactly one
Q&A request carrying the submitted text and the pre-reset selected
plant (the closure value), rather than consuming the input. -/
theorem c4_amended_reset_clears_context_but_continues (s : ChatState)
    (cr : ClassifyResp) (qr : QAResp)
    (hreset : jsToLowerCase (jsTrim s.inputMessage) = "reset")
    (himg : s.imageFiles = []) :
    ((handleSendMessage s cr qr).1).selectedPlant = none ∧
    ((handleSendMessage s cr qr).1).pendingQuestion = none ∧
    ((handleSendMessage s cr qr).1).classifications = [] ∧
    ((handleSendMessage s cr qr).1).showClassificationDialog = false ∧
    ((handleSendMessage s cr qr).1).imageFiles = [] ∧
    ((handleSendMessage s cr qr).1).imagePreviewUrls = [] ∧
    (handleSendMessage s cr qr).2
      = [Request.qa (if jsTruthy s.selectedPlant then s.selectedPlant else none)
          (jsTrim s.inputMessage) s.sessionId] := by
  have htr : jsTrim s.inputMessage ≠ "" := by
    intro h0
    rw [h0] at hreset
    exact absurd hreset (by decide)
  have hguard : ¬ (jsTrim s.inputMessage = "" ∧ s.imageFiles = []) := fun hc => htr hc.1
  have htrb : (jsTrim s.inputMessage != "") = true := by simpa using htr
  refine ⟨?_, ?_, ?_, ?_, ?_, ?_, ?_⟩ <;>
    by_cases hsel : jsTruthy s.selectedPlant <;>
      cases qr <;>
        simp [handleSendMessage, hguard, hreset, himg, htr, htrb, hsel,
          handleTextOnlyQuestion, textQuestionStart, qaResolve, clearAllImages,
          apply_ite Prod.fst, apply_ite Prod.snd]

/-- Witness for the amended C4 on the concrete reset submission. -/
theorem c4_amended_reset_clears_context_but_continues_witness :
    ((handleSendMessage sC4 (.ok none) (.ok (some "ans"))).1).selectedPlant = none ∧
    ((handleSendMessage sC4 (.ok none) (.ok (some "ans"))).1).pendingQuestion = none ∧
    ((handleSendMessage sC4 (.ok none) (.ok (some "ans"))).1).classifications = [] ∧
    ((handleSendMessage sC4 (.ok none) (.ok (some "ans"))).1).showClassificationDialog = false ∧
    ((handleSendMessage sC4 (.ok none) (.ok (some "ans"))).1).imageFiles = [] ∧
    ((handleSendMessage sC4 (.ok none) (.ok (some "ans"))).1).imagePreviewUrls = [] ∧
    (handleSendMessage sC4 (.ok none) (.ok (some "ans"))).2
      = [Request.qa (if jsTruthy sC4.selectedPlant then sC4.selectedPlant else none)
          (jsTrim sC4.inputMessage) sC4.sessionId] :=
  c4_amended_reset_clears_context_but_continues sC4 (.ok none) (.ok (some "ans"))
    (by decide) rfl

end PlantApp
